import Mathlib

/-!
Verification development for the Yeet repository (src/cogs/test.py):
a rate-limited GitHub API client (`Github.github_request`, `Github.edit_gist`)
and the change-detection polling loop of the `Test` cog
(`validate_unclaimed`, `validate_unreviewed`, `validate_missing_link`,
`update_pokemon`).

The embedding is shallow: every definition below is translated from the
Python source. Network nondeterminism is modelled by passing the sequence
of HTTP responses (for the client) or the outcome of the fetch and of the
gist write (for the tick) as explicit arguments. The asyncio lock of the
client is modelled by a trace of lock events, and exceptions by explicit
outcome constructors.
-/

namespace Yeet

/-! ## The Github client (`Github.github_request`, src/cogs/test.py lines 36-65)

A `Response` models one HTTP response as seen by `github_request`:
its status code, the `X-Ratelimit-Remaining` header (a string header,
absent or present), the parsed rate-limit reset delay used for the sleep,
and the parsed JSON body (of which the code reads `message` and
`html_url`). The body is assumed to parse, as in every path the claims
exercise. -/

structure GithubJson where
  message : String
  html_url : String
deriving DecidableEq, Repr

structure Response where
  status : Nat
  remaining : Option String
  resetDelta : Nat
  js : GithubJson
deriving DecidableEq, Repr

/-- Line 53: `if r.status == 429 or remaining == '0'`. -/
def rateLimited (r : Response) : Bool :=
  r.status == 429 || r.remaining == some "0"

/-- Lock and wait events emitted by `github_request`, in program order:
`acquire` for `await self._req_lock.acquire()` (line 48) and for the
re-acquisition performed by the recursive call, `sleep d` for
`await asyncio.sleep(delta)` (line 56), `release` for
`self._req_lock.release()` (lines 57 and 64-65). -/
inductive Event where
  | acquire
  | sleep (d : Nat)
  | release
deriving DecidableEq, Repr

/-- Outcome of one `github_request` call: `Except.ok js` models
`return js` (line 60), `Except.error msg` models
`raise commands.CommandError(js[ (quote) message (quote) ])` (line 62). -/
abbrev ReqResult := Except String GithubJson

/-- `Github.github_request` (lines 36-65), driven by the list of responses
the remote service returns to the successive attempts, one response per
attempt. The result is the trace of lock and sleep events together with
`some` outcome, or `none` when the response list is exhausted while the
call is still in its rate-limit retry recursion (the recursion of line 58
never produced a result on the given responses).

Program order per attempt: acquire the lock (line 48); read the headers
and body (lines 50-52); if rate-limited (line 53), sleep for the reset
delay (line 56) while still holding the lock (the comment on line 54 reads
`wait before we release the lock`), release (line 57) and recurse
(line 58); on 2xx return the body (lines 59-60); otherwise raise with the
message of the body (line 62). The `finally` block (lines 63-65) releases
the lock when it is still held, which is the case on the return and raise
paths; after the recursive call of line 58 the lock has already been
released by the inner call, so the `locked()` guard makes the `finally`
a no-op there. -/
def github_request : List Response → List Event × Option ReqResult
  | [] => ([], none)
  | r :: rest =>
    if rateLimited r then
      let inner := github_request rest
      (Event.acquire :: Event.sleep r.resetDelta :: Event.release :: inner.1, inner.2)
    else if 200 ≤ r.status ∧ r.status < 300 then
      ([Event.acquire, Event.release], some (Except.ok r.js))
    else
      ([Event.acquire, Event.release], some (Except.error r.js.message))

/-- Run a lock trace from a given lock state. `none` means the trace is
inconsistent for a single client: an `acquire` while the lock is already
held would block forever against itself (self-deadlock of the asyncio
lock), and a `release` of a free lock raises. `some b` is the lock state
after the trace. -/
def lockRun : Bool → List Event → Option Bool
  | b, [] => some b
  | b, Event.acquire :: es => if b then none else lockRun true es
  | b, Event.sleep _ :: es => lockRun b es
  | b, Event.release :: es => if b then lockRun false es else none

/-- `allSleepsHeld b es` holds when every `sleep` event of the trace
occurs while the lock is held. -/
def allSleepsHeld : Bool → List Event → Bool
  | _, [] => true
  | _, Event.acquire :: es => allSleepsHeld true es
  | b, Event.sleep _ :: es => b && allSleepsHeld b es
  | _, Event.release :: es => allSleepsHeld false es

/-- `allSleepsUnheld b es` holds when every `sleep` event of the trace
occurs while the lock is not held (the behaviour the spec describes:
release the gate before the sleep). -/
def allSleepsUnheld : Bool → List Event → Bool
  | _, [] => true
  | _, Event.acquire :: es => allSleepsUnheld true es
  | b, Event.sleep _ :: es => !b && allSleepsUnheld b es
  | _, Event.release :: es => allSleepsUnheld false es

/-- Modelled from the spec: the error contract of §4.1 and §7, an
`ApiError` carrying both the response status and the remote message. The
code raises `commands.CommandError(js[ (quote) message (quote) ])`
instead, which carries only the message; compare `github_request`. -/
structure ApiErrorSpec where
  status : Nat
  message : String
deriving DecidableEq, Repr

/-! ## The `Test` cog (src/cogs/test.py lines 204-392)

A `Row` models one row of the spreadsheet table read by
`pd.read_csv(self.url, index_col=0, header=6, ...)` (line 341): `idx` is
the row label of the index column (used on line 257 for the sheet
location), and the remaining fields are the columns the cog reads. A
missing (NaN) cell of an optional column is `none`. -/

structure Row where
  idx : Nat
  name : String
  personInCharge : Option String
  personId : Option String
  imgurLink : Option String
  approvalStatus : String
  comment : Option String
deriving DecidableEq, Repr

abbrev Table := List Row

/-- The mutable per-category attributes of the `Test` cog instance:
the dirty flags `self.unc` / `self.unr` / `self.ml` (lines 216-218) and
the lazily created stored counts `self.unc_amount` / `self.unr_amount` /
`self.ml_amount` (`none` models the attribute not existing yet, the
`hasattr` checks of lines 240, 291, 325). -/
structure TestState where
  unc : Bool
  unr : Bool
  ml : Bool
  unc_amount : Option Nat
  unr_amount : Option Nat
  ml_amount : Option Nat
deriving DecidableEq, Repr

/-- The state right after `Test.__init__` (lines 216-218: all three flags
`True`, no `*_amount` attribute exists yet). -/
def initState : TestState :=
  { unc := true, unr := true, ml := true
    unc_amount := none, unr_amount := none, ml_amount := none }

def UCP_GIST_ID : String := "2206767186c249f17b07ad9a299f068c"
def unc_filename : String := "Unclaimed Pokemon.md"
def unr_filename : String := "Unreviewed Pokemon.md"
def ml_filename : String := "Claimed missing link.md"
def sheetUrl : String :=
  "https://docs.google.com/spreadsheets/d/1-FBEjg5p6WxICTGLn0rvqwSdk30AmZqZgOOwsI2X1a4/export?gid=0&format=csv"

/-- External collaborators of the tick: `str(await self.bot.fetch_user(i))`
and `(await self.bot.fetch_user(i)).mention` for a user id `i`
(lines 276, 310, 312). -/
structure Env where
  userStr : String → String
  userMention : String → String

/-- Python string `<` (code-point lexicographic), written over the
character lists so that it evaluates by kernel reduction. -/
def pyStrLtChars : List Char → List Char → Bool
  | [], [] => false
  | [], _ :: _ => true
  | _ :: _, [] => false
  | a :: as, b :: bs =>
    if a.toNat < b.toNat then true
    else if b.toNat < a.toNat then false
    else pyStrLtChars as bs

/-- Python string `<=`: the negation of the reverse strict comparison. -/
def pyStrLe (x y : String) : Bool := !(pyStrLtChars y.data x.data)

/-- Python `sorted` on strings: insert into a sorted list. -/
def insertSorted (x : String) : List String → List String
  | [] => [x]
  | y :: ys => if pyStrLe x y then x :: y :: ys else y :: insertSorted x ys

/-- Python `sorted` on strings (ascending, stable). -/
def sortStrings : List String → List String
  | [] => []
  | x :: xs => insertSorted x (sortStrings xs)

/-- Remove adjacent duplicates of a sorted list (used to build the group
keys of a pandas `groupby`). -/
def dedupSorted : List String → List String
  | [] => []
  | [x] => [x]
  | x :: y :: t => if x = y then dedupSorted (y :: t) else x :: dedupSorted (y :: t)

/-- The group keys of `df.groupby(colPersonId)`: the distinct non-null
keys, in sorted order (pandas sorts group keys by default; NaN keys are
dropped, which never happens here because every caller filters to rows
with a non-null id first). -/
def groupKeys (df : Table) : List String :=
  dedupSorted (sortStrings (df.filterMap Row.personId))

/-- The rows of one group of `df.groupby(colPersonId)`, in table order. -/
def groupRows (df : Table) (k : String) : Table :=
  df.filter (fun r => r.personId == some k)

/-- `df.groupby(colPersonId).groups.items()`: association of each sorted
group key with the rows of its group. -/
def grouped (df : Table) : List (String × Table) :=
  (groupKeys df).map (fun k => (k, groupRows df k))

/-- `sorted(list(pk[colName][pk[colPersonInCharge].isna()]))` (line 237). -/
def unc_list_of (pk : Table) : List String :=
  sortStrings ((pk.filter (fun r => r.personInCharge.isNone)).map Row.name)

/-- `unc_amount = len(unc_list)` (line 239). -/
def uncAmount (pk : Table) : Nat := (unc_list_of pk).length

/-- `Test.validate_unclaimed` (lines 235-249), as a function of the cog
state and the table `self.pk`. Returns the new state and `some (unc_list,
unc_amount)` for the `return unc_list, unc_amount` of line 249, or `none`
for the `return False` of line 243 (which also sets `self.unc = False`,
line 242). On a changed or first-seen count, `self.unc_amount` is
assigned (lines 245, 247) before returning. -/
def validate_unclaimed (s : TestState) (pk : Table) :
    TestState × Option (List String × Nat) :=
  let l := unc_list_of pk
  let amount := l.length
  match s.unc_amount with
  | some a =>
    if a = amount then ({ s with unc := false }, none)
    else ({ s with unc_amount := some amount }, some (l, amount))
  | none => ({ s with unc_amount := some amount }, some (l, amount))

/-- The filter of `validate_unreviewed` (line 285): rows with a non-null
person id, a non-null imgur link and an approval status other than
`Approved`. -/
def unrFilter (pk : Table) : Table :=
  pk.filter (fun r =>
    r.personId.isSome && r.imgurLink.isSome && r.approvalStatus != "Approved")

/-- `len([pkm_id for pkm_idx in df_grouped.groups.values() for pkm_id in
pkm_idx])` (line 289): the total number of grouped rows. -/
def unrAmount (pk : Table) : Nat :=
  (((grouped (unrFilter pk)).map Prod.snd).flatten).length

/-- `self.url[:-24]` followed by the range anchor (line 257). -/
def sheetLocation (i : Nat) : String :=
  sheetUrl.dropRight 24 ++ "/edit#gid=0&range=E" ++ toString (i + 7)

/-- The text built for one row inside `Test.format_unreviewed`
(lines 253-267): the comment block is included only when the `Comment`
cell is not NaN. -/
def format_unreviewed_entry (r : Row) : String :=
  let comment_text :=
    "(Marked for review)\n        - Comment: " ++ r.comment.getD "" ++ "\n            "
  "\n    1. `" ++ r.name ++ "` " ++ (if r.comment.isSome then comment_text else "")
    ++ "\n        - [Sheet location](" ++ sheetLocation r.idx ++ ")"
    ++ "\n        - [Imgur](" ++ r.imgurLink.getD "nan" ++ ")\n            "

/-- `Test.format_unreviewed` (lines 251-271) for one user and the rows of
its group. -/
def format_unreviewed (user : String) (rows : Table) : String :=
  let pkm_list := rows.map format_unreviewed_entry
  let format_list := String.intercalate "\n" pkm_list
  "- **" ++ user ++ "** [" ++ toString pkm_list.length ++ "]\n" ++ format_list

/-- `Test.get_unreviewed` (lines 273-281): one formatted block per group,
in group-key order. -/
def get_unreviewed (env : Env) (df_grouped : List (String × Table)) : List String :=
  df_grouped.map (fun g => format_unreviewed (env.userStr g.1) g.2)

/-- `Test.validate_unreviewed` (lines 283-302): same shape as
`validate_unclaimed`, with the rendered list built only in the dirty
branches (lines 296, 299). -/
def validate_unreviewed (env : Env) (s : TestState) (pk : Table) :
    TestState × Option (List String × Nat) :=
  let df := unrFilter pk
  let df_grouped := grouped df
  let amount := ((df_grouped.map Prod.snd).flatten).length
  match s.unr_amount with
  | some a =>
    if a = amount then ({ s with unr := false }, none)
    else ({ s with unr_amount := some amount }, some (get_unreviewed env df_grouped, amount))
  | none => ({ s with unr_amount := some amount }, some (get_unreviewed env df_grouped, amount))

/-- The filter of `validate_missing_link` (line 319): rows with a non-null
person id and a NaN imgur link. -/
def mlFilter (pk : Table) : Table :=
  pk.filter (fun r => r.personId.isSome && r.imgurLink.isNone)

/-- The total number of grouped rows of `validate_missing_link`
(line 323). -/
def mlAmount (pk : Table) : Nat :=
  (((grouped (mlFilter pk)).map Prod.snd).flatten).length

/-- `Test.get_missing_link` (lines 304-315): per group, the plain block
and the mention block. -/
def get_missing_link (env : Env) (df_grouped : List (String × Table)) :
    List String × List String :=
  let blocks := df_grouped.map (fun g =>
    let pkm_list := g.2.map Row.name
    let formatted_list := pkm_list.map (fun x => "`" ++ x ++ "`")
    let counted := "** [" ++ toString pkm_list.length ++ "] - "
      ++ String.intercalate ", " formatted_list
    ("- **" ++ env.userStr g.1 ++ counted, "- **" ++ env.userMention g.1 ++ counted))
  (blocks.map Prod.fst, blocks.map Prod.snd)

/-- `Test.validate_missing_link` (lines 317-336). -/
def validate_missing_link (env : Env) (s : TestState) (pk : Table) :
    TestState × Option (List String × List String × Nat) :=
  let df := mlFilter pk
  let df_grouped := grouped df
  let amount := ((df_grouped.map Prod.snd).flatten).length
  match s.ml_amount with
  | some a =>
    if a = amount then ({ s with ml := false }, none)
    else
      let lists := get_missing_link env df_grouped
      ({ s with ml_amount := some amount }, some (lists.1, lists.2, amount))
  | none =>
    let lists := get_missing_link env df_grouped
    ({ s with ml_amount := some amount }, some (lists.1, lists.2, amount))

/-- One value of the `files` dict handed to `edit_gist` (lines 355-372):
the per-file dict with keys `filename` and `content`. -/
structure FileEntry where
  filename : String
  content : String
deriving DecidableEq, Repr

/-- `unc_content` (line 354). -/
def unc_content (unc_list : List String) (unc_amount : Nat) : String :=
  "## Count: " ++ toString unc_amount ++ "\n## Pokemon: \n"
    ++ (if unc_list.isEmpty then "None" else String.intercalate "\n" unc_list)

/-- `unr_content` (line 361). -/
def unr_content (unr_list : List String) (unr_amount : Nat) : String :=
  "## Count: " ++ toString unr_amount ++ "\n## Users: \n"
    ++ (if unr_list.isEmpty then "None" else String.intercalate "\n" unr_list)

/-- `ml_content` (line 368); note both placeholders are guarded by the
truthiness of `ml_list`, as in the source. -/
def ml_content (ml_list ml_list_mention : List String) (ml_amount : Nat) : String :=
  "## Count: " ++ toString ml_amount ++ "\n## Users: \n"
    ++ (if ml_list.isEmpty then "None" else String.intercalate "\n" ml_list)
    ++ "\n\n\n## Copy & paste to ping:\n```\n"
    ++ (if ml_list.isEmpty then "None" else String.intercalate "\n" ml_list_mention)
    ++ "\n```"

/-- The gist description built on line 378 from the stored amounts
(`self.ml_amount`, `self.unc_amount`, `self.unr_amount`, all assigned by
the time this line runs) and the formatted date. -/
def tick_description (s : TestState) (date : String) : String :=
  toString (s.ml_amount.getD 0) ++ " claimed pokemon with missing links, "
    ++ toString (s.unc_amount.getD 0) ++ " unclaimed pokemon and "
    ++ toString (s.unr_amount.getD 0)
    ++ " unreviewed pokemon - As of " ++ date
    ++ " GMT (Checks every 5 minutes, and updates only if there is a change)"

/-- How one run of the `update_pokemon` task body ends.
`raisedFetch` models the `pd.read_csv` of line 341 raising (network or
parse failure) and the exception leaving the coroutine; `raisedTypeError`
models the `TypeError` of unpacking a `False` return of a validator into
a tuple (lines 345, 347, 349); `raisedApi` models `edit_gist` raising
(`commands.CommandError` out of `github_request`); `noChange` is the
early `return` of line 374; `written` records the `edit_gist` call
(gist id, files dict as an ordered association list, description) and the
message sent to the update channel (line 385). -/
inductive TickOutcome where
  | raisedFetch
  | raisedTypeError
  | raisedApi (message : String)
  | noChange
  | written (gistId : String) (files : List (String × FileEntry))
      (description : String) (updateMsg : String)
deriving DecidableEq, Repr

/-- True exactly when the tick body ended by an exception escaping it. -/
def tickRaised : TickOutcome → Bool
  | TickOutcome.raisedFetch => true
  | TickOutcome.raisedTypeError => true
  | TickOutcome.raisedApi _ => true
  | TickOutcome.noChange => false
  | TickOutcome.written _ _ _ _ => false

/-- The filenames of the files dict of a `written` outcome, `none` for
every other outcome (no write happened). -/
def writtenFiles : TickOutcome → Option (List String)
  | TickOutcome.written _ files _ _ => some (files.map Prod.fst)
  | _ => none

/-- `Test.update_pokemon` (lines 339-385), one run of the task body.
`fetched` is the result of `pd.read_csv(self.url, ...)` (line 341):
`Except.error ()` when it raises, in which case the exception escapes at
once. `date` is the formatted timestamp of line 342. `editGist` is the
outcome the `github.edit_gist` call of lines 379-383 would produce when
reached: `Except.ok url` for a successful write returning the html url,
`Except.error m` for a raised `commands.CommandError m`.

The body runs the three validators in order (lines 345-349), each tuple
unpacking raising `TypeError` when the validator returned `False` — the
attribute mutations the validator already performed persist. It then
builds `updated` and `files` from the current flags (lines 351-372),
returns early when all three flags are false (lines 373-374), and
otherwise performs the write and sends the update message. -/
def update_pokemon (env : Env) (s : TestState) (fetched : Except Unit Table)
    (date : String) (editGist : Except String String) : TestState × TickOutcome :=
  match fetched with
  | Except.error _ => (s, TickOutcome.raisedFetch)
  | Except.ok pk =>
    match validate_unclaimed s pk with
    | (s1, none) => (s1, TickOutcome.raisedTypeError)
    | (s1, some (unc_list, unc_amount)) =>
      match validate_unreviewed env s1 pk with
      | (s2, none) => (s2, TickOutcome.raisedTypeError)
      | (s2, some (unr_list, unr_amount)) =>
        match validate_missing_link env s2 pk with
        | (s3, none) => (s3, TickOutcome.raisedTypeError)
        | (s3, some (ml_list, ml_list_mention, ml_amount)) =>
          let updated :=
            (if s3.unc then ["`Unclaimed pokemon` **(" ++ toString unc_amount ++ ")**"] else [])
            ++ (if s3.unr then ["`Unreviewed pokemon` **(" ++ toString unr_amount ++ ")**"] else [])
            ++ (if s3.ml then ["`Missing link pokemon` **(" ++ toString ml_amount ++ ")**"] else [])
          let files :=
            (if s3.unc then
              [(unc_filename, FileEntry.mk unc_filename (unc_content unc_list unc_amount))]
            else [])
            ++ (if s3.unr then
              [(unr_filename, FileEntry.mk unr_filename (unr_content unr_list unr_amount))]
            else [])
            ++ (if s3.ml then
              [(ml_filename, FileEntry.mk ml_filename (ml_content ml_list ml_list_mention ml_amount))]
            else [])
          if !(s3.unc || s3.unr || s3.ml) then (s3, TickOutcome.noChange)
          else
            match editGist with
            | Except.error m => (s3, TickOutcome.raisedApi m)
            | Except.ok gist_url =>
              (s3, TickOutcome.written UCP_GIST_ID files (tick_description s3 date)
                ("Updated " ++ String.intercalate " and " updated ++ "! (" ++ gist_url ++ ")"))

/-! ## The edit-gist modal (`EditGistModal.on_submit`, lines 163-172)

Python call binding, at the level the claim needs: a call binds iff every
keyword argument names a declared parameter that the positional arguments
have not already filled; otherwise the call raises `TypeError` before the
body of the callee runs. -/

/-- A Python value passed as argument (the shapes used at this call
site). -/
inductive PyVal where
  | str (s : String)
  | fileMap (m : List (String × FileEntry))
deriving DecidableEq, Repr

/-- Bind a Python call: `posParams` are the positional-or-keyword
parameters of the callee (after `self`), `kwonly` its keyword-only
parameters, `posArgs` the positional arguments and `kwArgs` the keyword
arguments of the call. `some` is the bound environment; `none` is a
`TypeError` at call time. -/
def bindArgs (posParams kwonly : List String) (posArgs : List PyVal)
    (kwArgs : List (String × PyVal)) : Option (List (String × PyVal)) :=
  if posArgs.length > posParams.length then none
  else
    let posBound := posParams.zip posArgs
    if kwArgs.all (fun kv =>
        ((posParams ++ kwonly).contains kv.1) && !((posBound.map Prod.fst).contains kv.1))
    then some (posBound ++ kwArgs)
    else none

/-- The positional-or-keyword parameters of `Github.edit_gist`
(lines 88-94, after `self`): `gist_id` and `files`. -/
def edit_gist_posParams : List String := ["gist_id", "files"]

/-- The keyword-only parameters of `Github.edit_gist`: `description`. -/
def edit_gist_kwonly : List String := ["description"]

/-- The argument binding of the `github.edit_gist(...)` call inside
`EditGistModal.on_submit` (lines 165-170): two positional arguments
(`self.gist_id.value` and `self.content.value`) and the keyword arguments
`description` and `filename`. -/
def on_submit_edit_gist_binding (gid content desc fname : String) :
    Option (List (String × PyVal)) :=
  bindArgs edit_gist_posParams edit_gist_kwonly
    [PyVal.str gid, PyVal.str content]
    [("description", PyVal.str desc), ("filename", PyVal.str fname)]

/-- What `EditGistModal.on_submit` does, paired with the number of
network requests it performs: when the binding fails, `TypeError` is
raised before the body of `edit_gist` runs, so no request is made and no
gist url reaches `interaction.response.send_message` (line 172). The
`sent` branch is reached only on a successful binding. -/
inductive SubmitResult where
  | typeError
  | sent (gist_url : String)
deriving DecidableEq, Repr

/-- `EditGistModal.on_submit` (lines 163-172) with the call-time binding
made explicit; the second component counts `github_request` calls. -/
def EditGistModal_on_submit (gid content desc fname : String)
    (remoteUrl : String) : SubmitResult × Nat :=
  match on_submit_edit_gist_binding gid content desc fname with
  | none => (SubmitResult.typeError, 0)
  | some _ => (SubmitResult.sent remoteUrl, 1)

/-! ## Concrete fixtures used by the counterexamples and witnesses -/

/-- A concrete environment for the external user lookups. -/
def envA : Env := ⟨fun i => "user" ++ i, fun i => "at" ++ i⟩

/-- A row that is unclaimed (no person in charge) and matches neither of
the other two categories. -/
def rowA : Row := ⟨0, "A", none, none, none, "", none⟩

def rowB : Row := ⟨1, "B", none, none, none, "", none⟩
def rowC : Row := ⟨2, "C", none, none, none, "", none⟩

/-- A row matching only the unreviewed category. -/
def rowD : Row := ⟨3, "D", some "X", some "123", some "http://i", "Pending", none⟩

/-- A row matching only the missing-link category. -/
def rowE : Row := ⟨4, "E", some "Y", some "456", none, "", none⟩

/-- A table with one unclaimed row and nothing else:
category counts (1, 0, 0). -/
def t1 : Table := [rowA]

/-- A table with category counts (2, 1, 1). -/
def t2 : Table := [rowB, rowC, rowD, rowE]

/-- A state whose stored counts all differ from the counts of `t1`. -/
def s0C1 : TestState :=
  { unc := true, unr := true, ml := true
    unc_amount := some 0, unr_amount := some 1, ml_amount := some 1 }

/-- The cog state after a first successful tick on `t1` from the fresh
state. -/
def s1t1 : TestState :=
  (update_pokemon envA initState (Except.ok t1) "d" (Except.ok "u")).1

/-- The cog state after re-running the tick on the unchanged `t1` from
`s1t1` (that tick raises, and clears the `unc` flag on the way). -/
def s2t1 : TestState :=
  (update_pokemon envA s1t1 (Except.ok t1) "d" (Except.ok "u")).1

/-- A rate-limit-exhausted response (status 429, remaining 0) with a
reset delay of 7. -/
def rlResp : Response := ⟨429, some "0", 7, ⟨"limited", ""⟩⟩

/-- A successful response with remaining quota. -/
def okResp : Response := ⟨200, some "55", 0, ⟨"", "http://u"⟩⟩

/-- A 404 response. -/
def nf404 : Response := ⟨404, none, 0, ⟨"Not Found", ""⟩⟩

/-- A 500 response with the same body message as `nf404`. -/
def nf500 : Response := ⟨500, none, 0, ⟨"Not Found", ""⟩⟩

/-! ## Helper lemmas -/

/-- When the stored unclaimed count equals the current one,
`validate_unclaimed` clears the `unc` flag and returns `False`. -/
theorem validate_unclaimed_clean (s : TestState) (pk : Table)
    (h : s.unc_amount = some (uncAmount pk)) :
    validate_unclaimed s pk = ({ s with unc := false }, none) := by
  simp [validate_unclaimed, h, uncAmount]

/-- When the stored unclaimed count is absent or differs,
`validate_unclaimed` stores the current count and returns the list and
the count. -/
theorem validate_unclaimed_dirty (s : TestState) (pk : Table)
    (h : s.unc_amount ≠ some (uncAmount pk)) :
    validate_unclaimed s pk
      = ({ s with unc_amount := some (uncAmount pk) },
         some (unc_list_of pk, uncAmount pk)) := by
  cases hs : s.unc_amount with
  | none => simp [validate_unclaimed, hs, uncAmount]
  | some a =>
    rw [hs] at h
    have ha : ¬a = (unc_list_of pk).length := by
      intro hEq; exact h (by simp [uncAmount, hEq])
    simp [validate_unclaimed, hs, uncAmount, ha]

/-- Clean branch of `validate_unreviewed`. -/
theorem validate_unreviewed_clean (env : Env) (s : TestState) (pk : Table)
    (h : s.unr_amount = some (unrAmount pk)) :
    validate_unreviewed env s pk = ({ s with unr := false }, none) := by
  simp [validate_unreviewed, h, unrAmount]

/-- Dirty branch of `validate_unreviewed`. -/
theorem validate_unreviewed_dirty (env : Env) (s : TestState) (pk : Table)
    (h : s.unr_amount ≠ some (unrAmount pk)) :
    validate_unreviewed env s pk
      = ({ s with unr_amount := some (unrAmount pk) },
         some (get_unreviewed env (grouped (unrFilter pk)), unrAmount pk)) := by
  cases hs : s.unr_amount with
  | none => simp [validate_unreviewed, hs, unrAmount]
  | some a =>
    rw [hs] at h
    have ha : ¬a = unrAmount pk := fun hEq => h (by rw [hEq])
    simp [validate_unreviewed, hs, unrAmount]
    simpa [unrAmount] using ha

/-- Clean branch of `validate_missing_link`. -/
theorem validate_missing_link_clean (env : Env) (s : TestState) (pk : Table)
    (h : s.ml_amount = some (mlAmount pk)) :
    validate_missing_link env s pk = ({ s with ml := false }, none) := by
  simp [validate_missing_link, h, mlAmount]

/-- Dirty branch of `validate_missing_link`. -/
theorem validate_missing_link_dirty (env : Env) (s : TestState) (pk : Table)
    (h : s.ml_amount ≠ some (mlAmount pk)) :
    validate_missing_link env s pk
      = ({ s with ml_amount := some (mlAmount pk) },
         some ((get_missing_link env (grouped (mlFilter pk))).1,
           (get_missing_link env (grouped (mlFilter pk))).2, mlAmount pk)) := by
  cases hs : s.ml_amount with
  | none => simp [validate_missing_link, hs, mlAmount]
  | some a =>
    rw [hs] at h
    have ha : ¬a = mlAmount pk := fun hEq => h (by rw [hEq])
    simp [validate_missing_link, hs, mlAmount]
    simpa [mlAmount] using ha

/-- Every `sleep` of a `github_request` trace happens while the lock is
held: the code sleeps first (line 56) and releases after (line 57). -/
theorem allSleepsHeld_github_request (rs : List Response) :
    allSleepsHeld false (github_request rs).1 = true := by
  induction rs with
  | nil => rfl
  | cons r rest ih =>
    by_cases h : rateLimited r = true
    · simp [github_request, h, allSleepsHeld, ih]
    · by_cases h2 : 200 ≤ r.status ∧ r.status < 300 <;>
        simp [github_request, h, h2, allSleepsHeld]

/-- A `github_request` trace is lock-consistent (no acquire of a held
lock, no release of a free one) and ends with the lock free. -/
theorem lockRun_github_request (rs : List Response) :
    lockRun false (github_request rs).1 = some false := by
  induction rs with
  | nil => rfl
  | cons r rest ih =>
    by_cases h : rateLimited r = true
    · simp [github_request, h, lockRun, ih]
    · by_cases h2 : 200 ≤ r.status ∧ r.status < 300 <;>
        simp [github_request, h, h2, lockRun]

/-! ## Claim theorems -/

/-- Claim C1, counterexample: a tick whose batched write fails still
updates the stored counts. From a state with stored counts (0, 1, 1) and
a table with counts (1, 0, 0), the `edit_gist` call raises, the tick ends
with that exception, and the stored unclaimed count has nevertheless
changed from 0 to 1 — so the next tick does not recompute the same
DirtySet. -/
theorem C1_failed_write_still_updates_state :
    (update_pokemon envA s0C1 (Except.ok t1) "d" (Except.error "boom")).2
        = TickOutcome.raisedApi "boom"
    ∧ (update_pokemon envA s0C1 (Except.ok t1) "d" (Except.error "boom")).1.unc_amount
        = some 1
    ∧ s0C1.unc_amount = some 0 :=
  ⟨rfl, rfl, rfl⟩

/-- Claim C1 (amended): the stored counts are written by the validators
during change detection, before and independently of the batched write —
the state a tick leaves behind is the same whatever the `edit_gist` call
returns, so a failed write does not preserve the previous counts. -/
theorem C1_state_update_independent_of_write (env : Env) (s : TestState)
    (fetched : Except Unit Table) (date : String) (w1 w2 : Except String String) :
    (update_pokemon env s fetched date w1).1 = (update_pokemon env s fetched date w2).1 := by
  cases fetched with
  | error e => rfl
  | ok pk =>
    unfold update_pokemon
    rcases h1 : validate_unclaimed s pk with ⟨s1, r1⟩
    cases r1 with
    | none => simp [h1]
    | some v1 =>
      obtain ⟨l1, a1⟩ := v1
      rcases h2 : validate_unreviewed env s1 pk with ⟨s2, r2⟩
      cases r2 with
      | none => simp [h1, h2]
      | some v2 =>
        obtain ⟨l2, a2⟩ := v2
        rcases h3 : validate_missing_link env s2 pk with ⟨s3, r3⟩
        cases r3 with
        | none => simp [h1, h2, h3]
        | some v3 =>
          obtain ⟨l3, m3, a3⟩ := v3
          simp only [h1, h2, h3]
          cases hb : (s3.unc || s3.unr || s3.ml)
          · simp [hb]
          · cases w1 <;> cases w2 <;> rfl

/-- Claim C2 (code bug): running the tick twice on the same table does
issue no second write, but not by completing normally — the second run
raises `TypeError`. The first tick from the fresh state on `t1` writes
all three files and stores the counts; because the unclaimed count is
then unchanged, `validate_unclaimed` returns `False` (clearing
`self.unc`), and `update_pokemon` raises while unpacking that `False`
into `unc_list, unc_amount`, so the second tick neither completes
normally nor leaves the per-category state unchanged. -/
theorem C2_second_tick_raises_type_error :
    writtenFiles (update_pokemon envA initState (Except.ok t1) "d" (Except.ok "u")).2
        = some [unc_filename, unr_filename, ml_filename]
    ∧ (update_pokemon envA s1t1 (Except.ok t1) "d" (Except.ok "u")).2
        = TickOutcome.raisedTypeError
    ∧ (update_pokemon envA s1t1 (Except.ok t1) "d" (Except.ok "u")).1.unc = false
    ∧ s1t1.unc = true :=
  ⟨rfl, rfl, rfl, rfl⟩

/-- Claim C3, counterexample: a category whose count changes between two
consecutive ticks can appear in the DirtySet zero times, not exactly
once. After a tick that found the unclaimed category clean (clearing
`self.unc`, never reset), a later tick on `t2` sees the unclaimed count
change from 1 to 2: the validator stores the new count, yet the written
files contain only the other two categories — the pending unclaimed
change is silently dropped and will not be retried. -/
theorem C3_changed_category_omitted_after_clean_tick :
    s2t1.unc_amount = some 1
    ∧ uncAmount t2 = 2
    ∧ writtenFiles (update_pokemon envA s2t1 (Except.ok t2) "d" (Except.ok "u")).2
        = some [unr_filename, ml_filename]
    ∧ (update_pokemon envA s2t1 (Except.ok t2) "d" (Except.ok "u")).1.unc_amount
        = some 2 :=
  ⟨rfl, by decide, rfl, rfl⟩

/-- Claim C3 (amended): in a tick where every category count differs from
its stored value and the write succeeds, a category is included in the
files map exactly when its dirty flag (`self.unc` / `self.unr` /
`self.ml`) is still true — the flag, once cleared by a clean tick, is
never reset, so a changed category may be omitted; and the stored counts
are set to the new values by the validators regardless of the write
outcome. -/
theorem C3_amended_dirty_category_written_iff_flag
    (env : Env) (s : TestState) (pk : Table) (date url : String)
    (hunc : s.unc_amount ≠ some (uncAmount pk))
    (hunr : s.unr_amount ≠ some (unrAmount pk))
    (hml : s.ml_amount ≠ some (mlAmount pk))
    (hflag : (s.unc || s.unr || s.ml) = true) :
    (update_pokemon env s (Except.ok pk) date (Except.ok url)).1.unc_amount
        = some (uncAmount pk)
    ∧ (update_pokemon env s (Except.ok pk) date (Except.ok url)).1.unr_amount
        = some (unrAmount pk)
    ∧ (update_pokemon env s (Except.ok pk) date (Except.ok url)).1.ml_amount
        = some (mlAmount pk)
    ∧ writtenFiles (update_pokemon env s (Except.ok pk) date (Except.ok url)).2
        = some ((if s.unc then [unc_filename] else [])
            ++ (if s.unr then [unr_filename] else [])
            ++ (if s.ml then [ml_filename] else []))
    ∧ ∀ w, (update_pokemon env s (Except.ok pk) date w).1
        = (update_pokemon env s (Except.ok pk) date (Except.ok url)).1 := by
  have e1 := validate_unclaimed_dirty s pk hunc
  have e2 := validate_unreviewed_dirty env { s with unc_amount := some (uncAmount pk) } pk
    (by simpa using hunr)
  have e3 := validate_missing_link_dirty env
    { s with unc_amount := some (uncAmount pk), unr_amount := some (unrAmount pk) } pk
    (by simpa using hml)
  refine ⟨?_, ?_, ?_, ?_, ?_⟩ <;>
    simp only [update_pokemon, e1, e2, e3, hflag] <;>
    simp [writtenFiles, hflag, apply_ite (List.map Prod.fst)]
  intro w
  cases w <;> rfl

/-- Claim C3, witness for the amended theorem: the hypotheses hold at
`s2t1` and `t2`, and the conclusion there shows the unclaimed category
(flag already cleared) omitted from the write. -/
theorem C3_amended_witness :
    (s2t1.unc_amount ≠ some (uncAmount t2)
      ∧ s2t1.unr_amount ≠ some (unrAmount t2)
      ∧ s2t1.ml_amount ≠ some (mlAmount t2)
      ∧ (s2t1.unc || s2t1.unr || s2t1.ml) = true)
    ∧ ((update_pokemon envA s2t1 (Except.ok t2) "d" (Except.ok "u")).1.unc_amount
          = some (uncAmount t2)
        ∧ (update_pokemon envA s2t1 (Except.ok t2) "d" (Except.ok "u")).1.unr_amount
          = some (unrAmount t2)
        ∧ (update_pokemon envA s2t1 (Except.ok t2) "d" (Except.ok "u")).1.ml_amount
          = some (mlAmount t2)
        ∧ writtenFiles (update_pokemon envA s2t1 (Except.ok t2) "d" (Except.ok "u")).2
          = some ((if s2t1.unc then [unc_filename] else [])
              ++ (if s2t1.unr then [unr_filename] else [])
              ++ (if s2t1.ml then [ml_filename] else []))
        ∧ ∀ w, (update_pokemon envA s2t1 (Except.ok t2) "d" w).1
          = (update_pokemon envA s2t1 (Except.ok t2) "d" (Except.ok "u")).1) :=
  ⟨⟨by decide, by decide, by decide, by decide⟩,
    C3_amended_dirty_category_written_iff_flag envA s2t1 t2 "d" "u"
      (by decide) (by decide) (by decide) (by decide)⟩

/-- Claim C4: each validator reports the category dirty (returns a
snapshot rather than `False`) exactly when the current matched-row count
differs from the stored count, where an absent stored count (first
evaluation) always counts as differing; the condition depends on the
counts alone, so a same-count content edit is not dirty. -/
theorem C4_dirty_iff_count_differs (env : Env) (s : TestState) (pk : Table) :
    ((validate_unclaimed s pk).2.isSome ↔ s.unc_amount ≠ some (uncAmount pk))
    ∧ ((validate_unreviewed env s pk).2.isSome ↔ s.unr_amount ≠ some (unrAmount pk))
    ∧ ((validate_missing_link env s pk).2.isSome ↔ s.ml_amount ≠ some (mlAmount pk)) := by
  refine ⟨?_, ?_, ?_⟩
  · by_cases h : s.unc_amount = some (uncAmount pk)
    · simp [validate_unclaimed_clean s pk h, h]
    · simp [validate_unclaimed_dirty s pk h, h]
  · by_cases h : s.unr_amount = some (unrAmount pk)
    · simp [validate_unreviewed_clean env s pk h, h]
    · simp [validate_unreviewed_dirty env s pk h, h]
  · by_cases h : s.ml_amount = some (mlAmount pk)
    · simp [validate_missing_link_clean env s pk h, h]
    · simp [validate_missing_link_dirty env s pk h, h]

/-- Claim C5, counterexample: on a rate-limited response the gate is not
released before the sleep. The trace of `github_request` on
`[rlResp, okResp]` sleeps while the lock is held — acquire, sleep 7,
release, re-acquire, release — so the claimed release-before-sleep
ordering fails. -/
theorem C5_sleep_occurs_while_lock_held :
    allSleepsUnheld false (github_request [rlResp, okResp]).1 = false
    ∧ (github_request [rlResp, okResp]).1
        = [Event.acquire, Event.sleep 7, Event.release, Event.acquire, Event.release] :=
  ⟨rfl, rfl⟩

/-- Claim C5 (amended): on rate-limit exhaustion the gate is held across
the sleep (the code sleeps first, the comment even says `wait before we
release the lock`), and is released only after the sleep, before the
recursive retry re-acquires it; the trace is lock-consistent, so the
client still cannot deadlock against itself. -/
theorem C5_amended_lock_held_across_sleep (rs : List Response) :
    allSleepsHeld false (github_request rs).1 = true
    ∧ lockRun false (github_request rs).1 = some false :=
  ⟨allSleepsHeld_github_request rs, lockRun_github_request rs⟩

/-- Claim C6, counterexample: the error raised for a non-2xx,
non-rate-limited response does not carry the response status. Two
responses that differ only in status (404 versus 500) raise equal
errors — `commands.CommandError` is given only the remote message — so
the status cannot be recovered from the failure. -/
theorem C6_error_omits_status :
    (github_request [nf404]).2 = some (Except.error "Not Found")
    ∧ (github_request [nf404]).2 = (github_request [nf500]).2
    ∧ nf404.status ≠ nf500.status :=
  ⟨rfl, rfl, by decide⟩

/-- Claim C6 (amended): for a response whose status is non-2xx and which
is not a rate-limit signal, `github_request` fails with an error carrying
the remote-provided message only, and returns no value to the caller. -/
theorem C6_amended_error_carries_message_only (r : Response) (rs : List Response)
    (h1 : rateLimited r = false)
    (h2 : ¬(200 ≤ r.status ∧ r.status < 300)) :
    (github_request (r :: rs)).2 = some (Except.error r.js.message) := by
  simp [github_request, h1, h2]

/-- Claim C6, witness for the amended theorem at the 404 response. -/
theorem C6_amended_witness :
    (rateLimited nf404 = false ∧ ¬(200 ≤ nf404.status ∧ nf404.status < 300))
    ∧ (github_request [nf404]).2 = some (Except.error nf404.js.message) :=
  ⟨⟨by decide, by decide⟩,
    C6_amended_error_carries_message_only nf404 [] (by decide) (by decide)⟩

/-- Claim C7, counterexample: when the table fetch raises, the tick does
not abort cleanly — `update_pokemon` has no handler, so the exception
escapes the tick body; whether the next scheduled tick runs is decided by
the external task framework, not by this code. -/
theorem C7_fetch_error_escapes_tick :
    update_pokemon envA initState (Except.error ()) "d" (Except.ok "u")
        = (initState, TickOutcome.raisedFetch)
    ∧ tickRaised (update_pokemon envA initState (Except.error ()) "d" (Except.ok "u")).2
        = true :=
  ⟨rfl, rfl⟩

/-- Claim C7 (amended): a failed fetch leaves every stored count and flag
unchanged and performs no document write, but the failure propagates out
of the tick body uncaught rather than being contained and logged. -/
theorem C7_amended_fetch_failure_state_unchanged_no_write (env : Env)
    (s : TestState) (date : String) (w : Except String String) :
    update_pokemon env s (Except.error ()) date w = (s, TickOutcome.raisedFetch)
    ∧ writtenFiles (update_pokemon env s (Except.error ()) date w).2 = none
    ∧ tickRaised (update_pokemon env s (Except.error ()) date w).2 = true :=
  ⟨rfl, rfl, rfl⟩

/-- Claim C8: on every exit path of `github_request` — returned body,
raised error, or the retry recursion — the trace of lock operations is
consistent and ends with the gate released, for every response sequence;
no execution leaves the client permanently locked. -/
theorem C8_lock_released_on_every_exit (rs : List Response) :
    lockRun false (github_request rs).1 = some false :=
  lockRun_github_request rs

/-- Claim C9: the `edit_gist` call inside `EditGistModal.on_submit`
raises `TypeError` at binding time, before any network request:
`filename` is not a parameter of `edit_gist`, and the raw content string
occupies the positional slot of the `files` mapping; the interaction
therefore never receives a gist url. -/
theorem C9_on_submit_type_error (gid content desc fname url : String) :
    EditGistModal_on_submit gid content desc fname url = (SubmitResult.typeError, 0)
    ∧ on_submit_edit_gist_binding gid content desc fname = none
    ∧ (edit_gist_posParams ++ edit_gist_kwonly).contains "filename" = false
    ∧ edit_gist_posParams.zip [PyVal.str gid, PyVal.str content]
        = [("gist_id", PyVal.str gid), ("files", PyVal.str content)] := by
  refine ⟨?_, ?_, by decide, rfl⟩ <;>
    simp [EditGistModal_on_submit, on_submit_edit_gist_binding, bindArgs,
      edit_gist_posParams, edit_gist_kwonly]

/-- Claim C10: `github_request` produces a result exactly when the
response sequence contains a response that is neither a 429 nor carries a
zero remaining-quota header; on a sequence of rate-limit-exhausted
responses only, it produces no result and performs one attempt (one lock
acquisition) per response — the retry recursion is unbounded. -/
theorem C10_terminates_iff_non_ratelimited_response (rs : List Response) :
    ((github_request rs).2.isSome ↔ ∃ r ∈ rs, rateLimited r = false)
    ∧ ((∀ r ∈ rs, rateLimited r = true) →
        (github_request rs).2 = none
        ∧ (github_request rs).1.count Event.acquire = rs.length) := by
  induction rs with
  | nil => exact ⟨by simp [github_request], fun _ => ⟨rfl, rfl⟩⟩
  | cons r rest ih =>
    by_cases h : rateLimited r = true
    · constructor
      · simp [github_request, h, ih.1]
      · intro hall
        have hrest := ih.2 (fun x hx => hall x (List.mem_cons_of_mem _ hx))
        simp [github_request, h, hrest.1, hrest.2, List.count_cons]
    · have h' : rateLimited r = false := by
        cases hr : rateLimited r
        · rfl
        · exact absurd hr h
      constructor
      · constructor
        · intro _
          exact ⟨r, List.mem_cons_self r rest, h'⟩
        · intro _
          by_cases h2 : 200 ≤ r.status ∧ r.status < 300 <;>
            simp [github_request, h, h2]
      · intro hall
        exact absurd (hall r (List.mem_cons_self r rest)) (by simp [h'])

/-- Claim C10, witness: on two rate-limit-exhausted responses the call
produces no result and acquires the lock once per attempt. -/
theorem C10_witness :
    ((github_request [rlResp, rlResp]).2.isSome
        ↔ ∃ r ∈ [rlResp, rlResp], rateLimited r = false)
    ∧ ((github_request [rlResp, rlResp]).2 = none
        ∧ (github_request [rlResp, rlResp]).1.count Event.acquire
          = [rlResp, rlResp].length) :=
  ⟨(C10_terminates_iff_non_ratelimited_response [rlResp, rlResp]).1,
    (C10_terminates_iff_non_ratelimited_response [rlResp, rlResp]).2 (by decide)⟩

end Yeet
